import Mathlib

/-!
Verification of the NYC taxi dashboard component (app/app.py) against its
natural-language specification.

Shallow embedding conventions:
* money and distances are `ℚ` (the Python floats, read exactly);
* a calendar date is its day number (days since 1970-01-01) as an `Int`;
* a timestamp is a day number plus a second-of-day; `pandas` accessors
  (`dt.date`, `dt.hour`, `dt.dayofweek`) become functions on it;
* a pandas DataFrame is a `List` of row structures plus explicit Booleans
  for the presence of each optional column (the script checks
  `"fare_amount" in df.columns` etc. at table granularity);
* `st.stop()` / `st.error(...)` halting a render pass is `Except.error msg`;
  a completed render is `Except.ok` of a structure holding every visual.
-/

/-- A parsed pickup timestamp: day number since 1970-01-01 (may be negative)
and second within the day. `pd.Timestamp` normalises the clock part, so the
embedding reduces `secOfDay` modulo 86400 wherever an hour is read. -/
structure DateTime where
  day : Int
  secOfDay : Nat
deriving DecidableEq, Repr

/-- Accessor `ts.dt.date`, via the day number. -/
def DateTime.date (t : DateTime) : Int := t.day

/-- Accessor `ts.dt.hour`: the hour-of-day, always in `0..23`. -/
def DateTime.hour (t : DateTime) : Nat := t.secOfDay % 86400 / 3600

/-- Accessor `ts.dt.dayofweek` (pandas convention, Monday = 0 .. Sunday = 6).
Day 0 (1970-01-01) was a Thursday, hence the offset 3. -/
def DateTime.dayofweek (t : DateTime) : Int := (t.day + 3) % 7

/-- Modelled from the spec: `isoDayOfWeek` (ISO 8601, Monday = 1 .. Sunday = 7),
the convention §4.1 and §6 require of the date-to-dow derivation. This
definition is written from the spec wording, to be compared with the code
derivation `pickup_dow_num`. -/
def isoDayOfWeek (day : Int) : Int := (day + 3) % 7 + 1

/-- Days from a proleptic Gregorian civil date (Howard Hinnant algorithm, the
one used by the datetime libraries the script relies on), to anchor the
weekday arithmetic in real calendar dates. -/
def daysFromCivil (y m d : Int) : Int :=
  let y' := if m ≤ 2 then y - 1 else y
  let era := (if 0 ≤ y' then y' else y' - 399) / 400
  let yoe := y' - era * 400
  let mp := (m + 9) % 12
  let doy := (153 * mp + 2) / 5 + d - 1
  let doe := yoe * 365 + yoe / 4 - yoe / 100 + doy
  era * 146097 + doe - 719468

/-- A row of the cleaned base table: a successfully parsed pickup timestamp
plus the numeric columns the KPIs and charts read. -/
structure Row where
  pickupDatetime : DateTime
  fareAmount : ℚ
  tipAmount : ℚ
  tripDistance : ℚ
  totalAmount : ℚ
  pulocationid : Int
deriving DecidableEq, Repr

/-- Column `pickup_date` (`base["pickup_datetime"].dt.date`). -/
def pickup_date (r : Row) : Int := r.pickupDatetime.date

/-- Column `pickup_hour` (`base["pickup_datetime"].dt.hour`). -/
def pickup_hour (r : Row) : Nat := r.pickupDatetime.hour

/-- Column `pickup_dow_num` (`base["pickup_datetime"].dt.dayofweek + 1`). -/
def pickup_dow_num (r : Row) : Int := r.pickupDatetime.dayofweek + 1

/-- The boolean filter mask of app.py lines 143-148: date between `d0` and
`d1` and hour between `hrMin` and `hrMax`, all bounds inclusive. -/
def mask (d0 d1 : Int) (hrMin hrMax : Nat) (r : Row) : Bool :=
  decide (d0 ≤ pickup_date r) && decide (pickup_date r ≤ d1) &&
  decide (hrMin ≤ pickup_hour r) && decide (pickup_hour r ≤ hrMax)

/-- `df_filtered = base.loc[mask]` (app.py line 149): row selection by the
boolean mask, rows kept unchanged. -/
def df_filtered (base : List Row) (d0 d1 : Int) (hrMin hrMax : Nat) : List Row :=
  base.filter (mask d0 d1 hrMin hrMax)

theorem mem_df_filtered_iff (base : List Row) (d0 d1 : Int) (hrMin hrMax : Nat) (r : Row) :
    r ∈ df_filtered base d0 d1 hrMin hrMax ↔
      r ∈ base ∧ (d0 ≤ pickup_date r ∧ pickup_date r ≤ d1 ∧
        hrMin ≤ pickup_hour r ∧ pickup_hour r ≤ hrMax) := by
  simp [df_filtered, mask, List.mem_filter, and_assoc]

/-- Claim C1: a row of the base table appears in `df_filtered` for the selected
date range `(d0, d1)` and hour range `(hrMin, hrMax)` iff
`d0 ≤ date ≤ d1` and `hrMin ≤ hour ≤ hrMax` (all bounds inclusive); rows
outside the date range are dropped entirely — they never appear in the
output, and every output row is an unchanged member of the input. -/
theorem c1_filter_membership (base : List Row) (d0 d1 : Int) (hrMin hrMax : Nat) :
    (∀ r : Row, r ∈ df_filtered base d0 d1 hrMin hrMax ↔
      r ∈ base ∧ d0 ≤ pickup_date r ∧ pickup_date r ≤ d1 ∧
        hrMin ≤ pickup_hour r ∧ pickup_hour r ≤ hrMax) ∧
    (∀ r ∈ df_filtered base d0 d1 hrMin hrMax,
      ¬ (pickup_date r < d0 ∨ d1 < pickup_date r)) := by
  refine ⟨fun r => (mem_df_filtered_iff base d0 d1 hrMin hrMax r).trans (by tauto), ?_⟩
  intro r hr
  rcases (mem_df_filtered_iff base d0 d1 hrMin hrMax r).mp hr with ⟨-, h1, h2, -⟩
  omega

/-- Claim C7: the derived `pickup_dow_num` column equals the ISO 8601 day of
week (Monday = 1 .. Sunday = 7) of the date of the row and always lies in `1..7`;
the anchor conjunct checks the convention on a real date, 2025-06-02, the
Monday of the concrete scenario in the spec. -/
theorem c7_dow_convention :
    (∀ r : Row, pickup_dow_num r = isoDayOfWeek (pickup_date r) ∧
      1 ≤ pickup_dow_num r ∧ pickup_dow_num r ≤ 7) ∧
    isoDayOfWeek (daysFromCivil 2025 6 2) = 1 := by
  refine ⟨fun r => ⟨rfl, ?_, ?_⟩, by decide⟩ <;>
  · have h1 := Int.emod_nonneg (r.pickupDatetime.day + 3) (by norm_num : (7 : ℤ) ≠ 0)
    have h2 := Int.emod_lt_of_pos (r.pickupDatetime.day + 3) (by norm_num : (0 : ℤ) < 7)
    simp only [pickup_dow_num, DateTime.dayofweek]
    omega

/-! ### KPI block (app.py lines 154-162)

Each sum is guarded by the presence of its column: missing column means the
Python expression falls back to `0.0`. The averages mirror the Python
truthiness conditions exactly: `x if a and b else 0.0` keeps the quotient
only when both numbers are nonzero. -/

/-- `trips_total = int(len(df_filtered))`. -/
def trips_total (rows : List Row) : Nat := rows.length

/-- `revenue_total = float(df["total_amount"].sum()) if present else 0.0`. -/
def revenue_total (rows : List Row) (hasTotal : Bool) : ℚ :=
  if hasTotal then (rows.map Row.totalAmount).sum else 0

/-- `fare_sum = float(df["fare_amount"].sum()) if present else 0.0`. -/
def fare_sum (rows : List Row) (hasFare : Bool) : ℚ :=
  if hasFare then (rows.map Row.fareAmount).sum else 0

/-- `tip_sum = float(df["tip_amount"].sum()) if present else 0.0`. -/
def tip_sum (rows : List Row) (hasTip : Bool) : ℚ :=
  if hasTip then (rows.map Row.tipAmount).sum else 0

/-- `dist_sum = float(df["trip_distance"].sum()) if present else 0.0`. -/
def dist_sum (rows : List Row) (hasDist : Bool) : ℚ :=
  if hasDist then (rows.map Row.tripDistance).sum else 0

/-- `avg_fare = (fare_sum / trips_total) if trips_total and fare_sum else 0.0`;
Python truthiness makes the condition "both nonzero". -/
def avg_fare (rows : List Row) (hasFare : Bool) : ℚ :=
  if trips_total rows ≠ 0 ∧ fare_sum rows hasFare ≠ 0 then
    fare_sum rows hasFare / (trips_total rows : ℚ)
  else 0

/-- `avg_tip_pct = (tip_sum / fare_sum) if fare_sum else 0.0`. -/
def avg_tip_pct (rows : List Row) (hasFare hasTip : Bool) : ℚ :=
  if fare_sum rows hasFare ≠ 0 then tip_sum rows hasTip / fare_sum rows hasFare
  else 0

/-- `avg_miles = (dist_sum / trips_total) if trips_total and dist_sum else 0.0`. -/
def avg_miles (rows : List Row) (hasDist : Bool) : ℚ :=
  if trips_total rows ≠ 0 ∧ dist_sum rows hasDist ≠ 0 then
    dist_sum rows hasDist / (trips_total rows : ℚ)
  else 0

/-- Modelled from the spec: `avgFare = (Σ fare_sum) / trips` if `trips > 0`
else `0` (§4.1 aggregateKpis). -/
def specAvgFare (rows : List Row) (hasFare : Bool) : ℚ :=
  if 0 < trips_total rows then fare_sum rows hasFare / (trips_total rows : ℚ) else 0

/-- Modelled from the spec: `avgTipPct = (Σ tip_sum) / (Σ fare_sum)` if
`Σ fare_sum > 0` else `0` (§4.1 aggregateKpis). -/
def specAvgTipPct (rows : List Row) (hasFare hasTip : Bool) : ℚ :=
  if 0 < fare_sum rows hasFare then tip_sum rows hasTip / fare_sum rows hasFare else 0

/-- Modelled from the spec: `avgDistance = (Σ distance_sum) / trips` if
`trips > 0` else `0` (§4.1 aggregateKpis). -/
def specAvgDistance (rows : List Row) (hasDist : Bool) : ℚ :=
  if 0 < trips_total rows then dist_sum rows hasDist / (trips_total rows : ℚ) else 0

/-- A row whose fare total is negative, as occurs in real trip data (refund
rows): the code divides by the nonzero negative fare sum where the claim
prescribes the fallback `0`. -/
def negFareRow : Row :=
  { pickupDatetime := { day := 20241, secOfDay := 30000 }
    fareAmount := -5, tipAmount := 1, tripDistance := 2, totalAmount := -4
    pulocationid := 1 }

/-- Claim C3, counterexample: on the one-row table whose fare sum is `-5`
(not positive), the claim requires `avgTipPct = 0`, but the code condition is
`fare_sum` nonzero, so it returns `1 / -5 ≠ 0`. -/
theorem c3_counterexample :
    ¬ 0 < fare_sum [negFareRow] true ∧
      avg_tip_pct [negFareRow] true true = -(1 / 5) ∧
      avg_tip_pct [negFareRow] true true ≠ specAvgTipPct [negFareRow] true true := by
  refine ⟨?_, ?_, ?_⟩ <;>
    norm_num [avg_tip_pct, specAvgTipPct, fare_sum, tip_sum, negFareRow]

/-- Claim C3, amended: `avgFare` and `avgDistance` match the spec formulas
for every filtered row set unconditionally, and `avgTipPct` matches whenever
the fare sum is nonnegative (the code tests `fare_sum` for nonzero, not for
positive, so a negative fare sum is divided by instead of yielding 0); on a
degenerate denominator every average is the defined fallback `0`, and no
division-by-zero is ever raised (the functions are total). -/
theorem c3_kpis_amended (rows : List Row) (hasFare hasTip hasDist : Bool)
    (h : 0 ≤ fare_sum rows hasFare) :
    avg_fare rows hasFare = specAvgFare rows hasFare ∧
    avg_tip_pct rows hasFare hasTip = specAvgTipPct rows hasFare hasTip ∧
    avg_miles rows hasDist = specAvgDistance rows hasDist := by
  refine ⟨?_, ?_, ?_⟩
  · by_cases ht : trips_total rows = 0
    · simp [avg_fare, specAvgFare, ht]
    · by_cases hf : fare_sum rows hasFare = 0
      · simp [avg_fare, specAvgFare, ht, hf, Nat.pos_of_ne_zero]
      · simp [avg_fare, specAvgFare, ht, hf, Nat.pos_of_ne_zero]
  · by_cases hf : fare_sum rows hasFare = 0
    · simp [avg_tip_pct, specAvgTipPct, hf]
    · have hpos : 0 < fare_sum rows hasFare := lt_of_le_of_ne h (Ne.symm hf)
      simp [avg_tip_pct, specAvgTipPct, hf, hpos]
  · by_cases ht : trips_total rows = 0
    · simp [avg_miles, specAvgDistance, ht]
    · by_cases hd : dist_sum rows hasDist = 0
      · simp [avg_miles, specAvgDistance, ht, hd, Nat.pos_of_ne_zero]
      · simp [avg_miles, specAvgDistance, ht, hd, Nat.pos_of_ne_zero]

/-- A well-formed row used as the witness input for the amended KPI claim. -/
def okRow : Row :=
  { pickupDatetime := { day := 20241, secOfDay := 30000 }
    fareAmount := 10, tipAmount := 2, tripDistance := 3, totalAmount := 12
    pulocationid := 43 }

theorem c3_kpis_amended_witness :
    0 ≤ fare_sum [okRow] true ∧
      (avg_fare [okRow] true = specAvgFare [okRow] true ∧
       avg_tip_pct [okRow] true true = specAvgTipPct [okRow] true true ∧
       avg_miles [okRow] true = specAvgDistance [okRow] true) :=
  ⟨by norm_num [fare_sum, okRow], c3_kpis_amended [okRow] true true true
    (by norm_num [fare_sum, okRow])⟩

/-! ### Hour-by-day-of-week ratio (spec §4.1, not present in app/app.py)

The ratio-redistribution variant of the repository is not under src/, so these
operations are modelled from the spec wording. -/

/-- A row of the HourDowAggregate table (§3): `{day_of_week, hour, trip_count}`.
The count is a rational so that malformed upstream data (negative counts) is
representable, as §4.1 explicitly guards against. -/
structure HourDowRow where
  day_of_week : Nat
  hour : Nat
  trip_count : ℚ
deriving DecidableEq, Repr

/-- Modelled from the spec: `total(dow)` — sum of `trip_count` over all rows
whose `day_of_week` equals `dow` (§4.1 computeRatioByDow). -/
def totalByDow (hourDow : List HourDowRow) (dow : Nat) : ℚ :=
  ((hourDow.filter (fun r => r.day_of_week == dow)).map HourDowRow.trip_count).sum

/-- Modelled from the spec: `selected(dow)` — sum of `trip_count` over rows
with this `day_of_week` and `minHour ≤ hour ≤ maxHour` (§4.1). -/
def selectedByDow (hourDow : List HourDowRow) (minHour maxHour dow : Nat) : ℚ :=
  ((hourDow.filter (fun r =>
    r.day_of_week == dow && minHour ≤ r.hour && r.hour ≤ maxHour)).map
      HourDowRow.trip_count).sum

/-- Modelled from the spec: `computeRatioByDow` (§4.1) —
`ratio(dow) = selected(dow) / total(dow)` if `total(dow) > 0`, else `0`,
and the result is clamped to `[0, 1]`. -/
def computeRatioByDow (hourDow : List HourDowRow) (minHour maxHour dow : Nat) : ℚ :=
  let raw := if 0 < totalByDow hourDow dow then
    selectedByDow hourDow minHour maxHour dow / totalByDow hourDow dow else 0
  min 1 (max 0 raw)

/-- Claim C2: for all inputs and every `dow`, `computeRatioByDow` lies in
`[0,1]`; it is the clamp of `selected/total` when `total(dow) > 0` and it is
`0` when `total(dow)` is not positive — in particular the bound holds even on
malformed upstream data with `selected(dow) > total(dow)`. -/
theorem c2_ratio_bounded (hourDow : List HourDowRow) (minHour maxHour dow : Nat) :
    (0 ≤ computeRatioByDow hourDow minHour maxHour dow ∧
      computeRatioByDow hourDow minHour maxHour dow ≤ 1) ∧
    (0 < totalByDow hourDow dow →
      computeRatioByDow hourDow minHour maxHour dow =
        min 1 (max 0 (selectedByDow hourDow minHour maxHour dow /
          totalByDow hourDow dow))) ∧
    (¬ 0 < totalByDow hourDow dow →
      computeRatioByDow hourDow minHour maxHour dow = 0) := by
  refine ⟨⟨le_min (by norm_num) (le_max_left 0 _), min_le_left 1 _⟩, ?_, ?_⟩ <;>
    intro h <;> simp [computeRatioByDow, h]

/-- Malformed HourDowAggregate input: `total(1) = 10 + (-8) = 2` while the
hours `0..12` select `10`, so the unclamped ratio would be `5`. -/
def malformedHourDow : List HourDowRow :=
  [⟨1, 5, 10⟩, ⟨1, 20, -8⟩]

theorem c2_ratio_bounded_witness :
    0 < totalByDow malformedHourDow 1 ∧
      computeRatioByDow malformedHourDow 0 12 1 =
        min 1 (max 0 (selectedByDow malformedHourDow 0 12 1 /
          totalByDow malformedHourDow 1)) :=
  ⟨by norm_num [totalByDow, malformedHourDow],
   (c2_ratio_bounded malformedHourDow 0 12 1).2.1
     (by norm_num [totalByDow, malformedHourDow])⟩

/-! ### Load-and-clean step (app.py lines 117-123) -/

/-- A row of the raw base table. `pickupParsed` is the outcome of
`pd.to_datetime(value, errors="coerce")` on the timestamp cell of the row:
`some` a timestamp on success, `none` (NaT) when parsing fails. -/
structure RawRow where
  pickupParsed : Option DateTime
  fareAmount : ℚ
  tipAmount : ℚ
  tripDistance : ℚ
  totalAmount : ℚ
  pulocationid : Int
deriving DecidableEq, Repr

/-- One raw row after coercion and `dropna`: kept (with its parsed timestamp)
iff the timestamp parsed. -/
def cleanRow (raw : RawRow) : Option Row :=
  raw.pickupParsed.map (fun dt =>
    { pickupDatetime := dt, fareAmount := raw.fareAmount, tipAmount := raw.tipAmount
      tripDistance := raw.tripDistance, totalAmount := raw.totalAmount
      pulocationid := raw.pulocationid })

/-- Lines 118-119: coerce the timestamp column, then drop the rows whose
timestamp failed to parse. -/
def cleanBase (raws : List RawRow) : List Row :=
  raws.filterMap cleanRow

/-- Derived-column bound: an hour read from a timestamp is below 24. -/
theorem pickup_hour_lt_24 (r : Row) : pickup_hour r < 24 := by
  simp only [pickup_hour, DateTime.hour]
  omega

/-- Derived-column bound: `pickup_dow_num` is between 1 and 7. -/
theorem pickup_dow_num_bounds (r : Row) :
    1 ≤ pickup_dow_num r ∧ pickup_dow_num r ≤ 7 := by
  have h1 := Int.emod_nonneg (r.pickupDatetime.day + 3) (by norm_num : (7 : ℤ) ≠ 0)
  have h2 := Int.emod_lt_of_pos (r.pickupDatetime.day + 3) (by norm_num : (0 : ℤ) < 7)
  simp only [pickup_dow_num, DateTime.dayofweek]
  omega

/-- Claim C10: cleaning is total (never raises) and drops exactly the rows
whose timestamp failed to parse: the cleaned length counts the parseable raw
rows, every surviving row stems from a raw row whose parse succeeded, and
every surviving row satisfies `pickup_hour ≤ 23` and
`1 ≤ pickup_dow_num ≤ 7`. -/
theorem c10_clean_invariant (raws : List RawRow) :
    (cleanBase raws).length = (raws.filter (fun raw => raw.pickupParsed.isSome)).length ∧
    (∀ row ∈ cleanBase raws, ∃ raw ∈ raws,
      raw.pickupParsed = some row.pickupDatetime ∧ cleanRow raw = some row) ∧
    (∀ row ∈ cleanBase raws, pickup_hour row ≤ 23 ∧
      1 ≤ pickup_dow_num row ∧ pickup_dow_num row ≤ 7) := by
  refine ⟨?_, ?_, fun row _ =>
    ⟨Nat.lt_succ_iff.mp (pickup_hour_lt_24 row),
     (pickup_dow_num_bounds row).1, (pickup_dow_num_bounds row).2⟩⟩
  · induction raws with
    | nil => rfl
    | cons raw rest ih =>
      cases h : raw.pickupParsed <;>
        simp [cleanBase, List.filterMap_cons, List.filter_cons, cleanRow, h] <;>
        simpa [cleanBase] using ih
  · intro row hrow
    rcases List.mem_filterMap.mp hrow with ⟨raw, hmem, hclean⟩
    refine ⟨raw, hmem, ?_, hclean⟩
    cases h : raw.pickupParsed with
    | none => simp [cleanRow, h] at hclean
    | some dt =>
      simp only [cleanRow, h, Option.map_some] at hclean
      have hrow' := Option.some_injective _ hclean
      subst hrow'
      simp [h]

/-! ### Source tables, loader and render pipeline (app.py lines 57-115, 129-223)

A source read is `Option SourceTable`: `none` when `read_parquet` raised for
that subprefix, `some` a table otherwise. Column presence is explicit, since
the script probes `df.columns`. `st.error` followed by `st.stop` is a halted
render pass: `Except.error` carrying the displayed message. -/

/-- A table as read from one S3 subprefix, with explicit column presence for
every column the script probes. -/
structure SourceTable where
  rows : List RawRow
  hasPickupDatetime : Bool
  hasTpep : Bool
  hasLpep : Bool
  hasPickupTs : Bool
  hasFare : Bool
  hasTip : Bool
  hasDist : Bool
  hasTotal : Bool
deriving DecidableEq, Repr

/-- After the rename loop of lines 68-72, a `pickup_datetime` column exists
iff the table has any of the four candidate timestamp columns. -/
def hasTimestampCol (t : SourceTable) : Bool :=
  t.hasPickupDatetime || t.hasTpep || t.hasLpep || t.hasPickupTs

/-- Diagnostic of line 80, raised when no subprefix yields a usable base. -/
def msgLoadFail : String := "Falha ao ler base com timestamp no S3"

/-- Wrapper of line 106: the try/except around the load re-labels the error. -/
def msgLoadWrap (e : String) : String := "Erro ao ler Parquet no S3. Detalhe: " ++ e

/-- Message of `guard_df` (line 99). -/
def msgGuard (name : String) : String := "Nenhum dado em " ++ name ++ ". Confira no S3"

/-- `load_base_with_timestamp` (lines 57-80): try each subprefix in order; a
failed read or a table with no recognised timestamp column moves on to the
next; if none works, fail with the diagnostic. -/
def load_base_with_timestamp : List (Option SourceTable) → Except String SourceTable
  | [] => .error msgLoadFail
  | none :: rest => load_base_with_timestamp rest
  | some t :: rest =>
    if hasTimestampCol t then .ok t else load_base_with_timestamp rest

/-- `guard_df` (lines 97-100): halt the render with a message if the frame is
empty. -/
def guard_df (rows : List RawRow) (name : String) : Except String Unit :=
  if rows.length = 0 then .error (msgGuard name) else .ok ()

/-- Stable insertion used to model `sort_values`: keep walking while the
existing element `y` satisfies `le y x`, so equal keys keep their original
relative order. -/
def insertSorted (le : α → α → Bool) (x : α) : List α → List α
  | [] => [x]
  | y :: ys => if le y x then y :: insertSorted le x ys else x :: y :: ys

/-- Stable sort by the Boolean relation `le` (model of `sort_values`). -/
def sortList (le : α → α → Bool) (l : List α) : List α :=
  l.foldr (insertSorted le) []

/-- `groupby("pickup_date").agg(trips=count)` then `sort_values` (lines
173-177): ascending date keys with their row counts. -/
def dailySeries (rows : List Row) : List (Int × Nat) :=
  (sortList (fun a b => decide (a ≤ b)) (rows.map pickup_date).dedup).map
    (fun d => (d, (rows.filter (fun r => pickup_date r == d)).length))

/-- `groupby(["pickup_dow_num", "pickup_hour"]).agg(trips=count)` (lines
184-188); the subsequent pivot/fillna is chart layout over these counts. -/
def heatTable (rows : List Row) : List ((Int × Nat) × Nat) :=
  (sortList (fun a b => decide (a.1 < b.1) || (a.1 == b.1 && decide (a.2 ≤ b.2)))
      (rows.map (fun r => (pickup_dow_num r, pickup_hour r))).dedup).map
    (fun k => (k, (rows.filter (fun r =>
      pickup_dow_num r == k.1 && pickup_hour r == k.2)).length))

/-- One row of `by_zone` (lines 196-200). When `total_amount` is absent the
script aggregates the count into the `revenue_total` column instead. -/
structure PipeZone where
  pulocationid : Int
  trips : Nat
  revenue : ℚ
deriving DecidableEq, Repr

/-- `groupby("pulocationid")` with trip count and revenue sum (lines
196-200); keys ascending as pandas groupby sorts them. -/
def by_zone (rows : List Row) (hasTotal : Bool) : List PipeZone :=
  (sortList (fun a b => decide (a ≤ b)) (rows.map Row.pulocationid).dedup).map
    (fun z =>
      let zrows := rows.filter (fun r => r.pulocationid == z)
      { pulocationid := z, trips := zrows.length
        revenue := if hasTotal then (zrows.map Row.totalAmount).sum
          else (zrows.length : ℚ) })

/-- `by_zone.sort_values("trips", ascending=False).head(15)` (lines 202-206);
the merge with the GeoJSON lookup only attaches display names. -/
def topZones (rows : List Row) (hasTotal : Bool) : List PipeZone :=
  (sortList (fun a b => decide (b.trips ≤ a.trips)) (by_zone rows hasTotal)).take 15

/-- The KPI header row (lines 164-169). -/
structure Kpis where
  trips : Nat
  revenue : ℚ
  avgFare : ℚ
  avgTipPct : ℚ
  avgMiles : ℚ
deriving DecidableEq, Repr

/-- Everything one completed render pass displays. -/
structure RenderOutput where
  kpis : Kpis
  daily : List (Int × Nat)
  heat : List ((Int × Nat) × Nat)
  ranking : List PipeZone
  mapdf : List (Int × Nat)
deriving DecidableEq, Repr

/-- The visuals computed from a guarded, nonempty filtered frame
(lines 152-223). -/
def buildOutput (t : SourceTable) (d0 d1 : Int) (hrMin hrMax : Nat) : RenderOutput :=
  let filtered := df_filtered (cleanBase t.rows) d0 d1 hrMin hrMax
  { kpis :=
      { trips := trips_total filtered
        revenue := revenue_total filtered t.hasTotal
        avgFare := avg_fare filtered t.hasFare
        avgTipPct := avg_tip_pct filtered t.hasFare t.hasTip
        avgMiles := avg_miles filtered t.hasDist }
    daily := dailySeries filtered
    heat := heatTable filtered
    ranking := topZones filtered t.hasTotal
    mapdf := (by_zone filtered t.hasTotal).map (fun z => (z.pulocationid, z.trips)) }

/-- One render pass (lines 103-223): load, guard the base, clean, filter,
guard the filtered frame, then display everything; any failed guard halts
the whole pass with its message. -/
def render (sources : List (Option SourceTable)) (d0 d1 : Int)
    (hrMin hrMax : Nat) : Except String RenderOutput :=
  match load_base_with_timestamp sources with
  | .error e => .error (msgLoadWrap e)
  | .ok t =>
    match guard_df t.rows "base com timestamp" with
    | .error e => .error e
    | .ok _ =>
      if (df_filtered (cleanBase t.rows) d0 d1 hrMin hrMax).length = 0 then
        .error (msgGuard "df_filtered (apos filtros de data+hora)")
      else .ok (buildOutput t d0 d1 hrMin hrMax)

/-- Helper: when no subprefix yields a table carrying any recognised
timestamp column (in particular when every read fails), the loader fails
with its diagnostic. -/
theorem load_err_of_no_timestamp (sources : List (Option SourceTable))
    (h : ∀ t : SourceTable, some t ∈ sources → hasTimestampCol t = false) :
    load_base_with_timestamp sources = .error msgLoadFail := by
  induction sources with
  | nil => rfl
  | cons s rest ih =>
    cases s with
    | none =>
      simpa [load_base_with_timestamp] using
        ih (fun t ht => h t (List.mem_cons_of_mem _ ht))
    | some t =>
      have ht := h t (List.mem_cons_self _ _)
      simp only [load_base_with_timestamp, ht, Bool.false_eq_true, if_false]
      exact ih (fun u hu => h u (List.mem_cons_of_mem _ hu))

/-- Claim C5: when the base table is absent at the source (every subprefix
read fails) or empty, the render pass halts terminally with a descriptive
(nonempty) message, and there is no partial render: a successful pass always
carries the full output built from a loader success over a nonempty table. -/
theorem c5_terminal_halt (sources : List (Option SourceTable)) (d0 d1 : Int)
    (hrMin hrMax : Nat) :
    ((∀ s ∈ sources, s = none) →
      render sources d0 d1 hrMin hrMax = .error (msgLoadWrap msgLoadFail)) ∧
    (∀ t, load_base_with_timestamp sources = .ok t → t.rows = [] →
      render sources d0 d1 hrMin hrMax = .error (msgGuard "base com timestamp")) ∧
    ((msgLoadWrap msgLoadFail).length ≠ 0 ∧
      (msgGuard "base com timestamp").length ≠ 0) ∧
    (∀ o, render sources d0 d1 hrMin hrMax = .ok o →
      ∃ t, load_base_with_timestamp sources = .ok t ∧ t.rows ≠ [] ∧
        o = buildOutput t d0 d1 hrMin hrMax) := by
  refine ⟨?_, ?_, ⟨by decide, by decide⟩, ?_⟩
  · intro h
    have hl : load_base_with_timestamp sources = .error msgLoadFail :=
      load_err_of_no_timestamp sources
        (fun t ht => Option.noConfusion (h (some t) ht))
    simp [render, hl]
  · intro t hl hrows
    simp [render, hl, guard_df, hrows]
  · intro o ho
    unfold render at ho
    split at ho
    · exact absurd ho (by simp)
    · rename_i t hl
      split at ho
      · exact absurd ho (by simp)
      · rename_i u hg
        split at ho
        · exact absurd ho (by simp)
        · refine ⟨t, hl, ?_, (Except.ok.inj ho).symm⟩
          intro hnil
          rw [hnil] at hg
          simp [guard_df] at hg

theorem c5_terminal_halt_witness :
    render [none, none, none] 0 0 0 23 = .error (msgLoadWrap msgLoadFail) :=
  (c5_terminal_halt [none, none, none] 0 0 0 23).1 (by simp)

/-- A source table carrying the timestamp column but no rows. -/
def emptySource : SourceTable :=
  { rows := [], hasPickupDatetime := true, hasTpep := false, hasLpep := false
    hasPickupTs := false, hasFare := true, hasTip := true, hasDist := true
    hasTotal := true }

/-- Claim C4, counterexample: on an empty (but well-formed) base table the
component does not produce zero/empty outputs — `guard_df` halts the render
pass with an error message, so no `.ok` outcome exists. -/
theorem c4_counterexample :
    render [some emptySource] 0 0 0 23 = .error (msgGuard "base com timestamp") ∧
    ∀ o, render [some emptySource] 0 0 0 23 ≠ .ok o := by
  refine ⟨rfl, fun o h => ?_⟩
  rw [show render [some emptySource] 0 0 0 23 =
    .error (msgGuard "base com timestamp") from rfl] at h
  exact Except.noConfusion h

/-- Claim C4, amended: the KPI formulas themselves are zero-division safe on
an empty row set — trips, revenue and every average are `0` and the
functions are total, so nothing is raised — but the program does not render
those zeros: on an empty loaded table `guard_df` halts the pass with the
missing-data message instead. -/
theorem c4_empty_amended (hasTotal hasFare hasTip hasDist : Bool) :
    (trips_total [] = 0 ∧ revenue_total [] hasTotal = 0 ∧
      fare_sum [] hasFare = 0 ∧ avg_fare [] hasFare = 0 ∧
      avg_tip_pct [] hasFare hasTip = 0 ∧ avg_miles [] hasDist = 0) ∧
    (∀ (sources : List (Option SourceTable)) (d0 d1 : Int) (hrMin hrMax : Nat) t,
      load_base_with_timestamp sources = .ok t → t.rows = [] →
      render sources d0 d1 hrMin hrMax = .error (msgGuard "base com timestamp")) := by
  constructor
  · refine ⟨rfl, ?_, ?_, ?_, ?_, ?_⟩ <;>
      simp [revenue_total, fare_sum, tip_sum, dist_sum, avg_fare, avg_tip_pct,
        avg_miles, trips_total]
  · intro sources d0 d1 hrMin hrMax t hl hrows
    simp [render, hl, guard_df, hrows]

theorem c4_empty_amended_witness :
    trips_total [] = 0 ∧
      render [some emptySource] 0 0 0 23 = .error (msgGuard "base com timestamp") :=
  ⟨(c4_empty_amended true true true true).1.1,
   (c4_empty_amended true true true true).2 [some emptySource] 0 0 0 23
     emptySource rfl rfl⟩

/-- A raw row whose timestamp parses (2025-06-02, 08:20) and whose filter
columns pass a date window around day 20241. -/
def okRawRow : RawRow :=
  { pickupParsed := some { day := 20241, secOfDay := 30000 }
    fareAmount := 10, tipAmount := 2, tripDistance := 3, totalAmount := 12
    pulocationid := 43 }

/-- A nonempty source table with a timestamp column but none of the fare,
tip, distance or revenue columns. -/
def missingFareSource : SourceTable :=
  { rows := [okRawRow], hasPickupDatetime := true, hasTpep := false
    hasLpep := false, hasPickupTs := false, hasFare := false, hasTip := false
    hasDist := false, hasTotal := false }

/-- Claim C6, counterexample: a table lacking the fare, tip, distance and
revenue fields is not handled like missing data — the render pass completes
(`.ok`) instead of halting, contradicting "every missing field enumerated in
the data model alike". -/
theorem c6_counterexample :
    missingFareSource.hasFare = false ∧ missingFareSource.hasTip = false ∧
    missingFareSource.hasDist = false ∧ missingFareSource.hasTotal = false ∧
    (render [some missingFareSource] 20241 20241 0 23).isOk = true :=
  ⟨rfl, rfl, rfl, rfl, rfl⟩

/-- Claim C6, amended: only the timestamp field is required — when every
successfully read table lacks all four timestamp column candidates the
render halts with the descriptive load diagnostic — while a missing fare,
tip, distance or revenue column never halts: its sum silently falls back to
`0` and a pass that clears the emptiness guards completes in full,
independently of those column flags. -/
theorem c6_schema_amended (sources : List (Option SourceTable)) (d0 d1 : Int)
    (hrMin hrMax : Nat) :
    ((∀ t : SourceTable, some t ∈ sources → hasTimestampCol t = false) →
      render sources d0 d1 hrMin hrMax = .error (msgLoadWrap msgLoadFail)) ∧
    (∀ rows : List Row, fare_sum rows false = 0 ∧ tip_sum rows false = 0 ∧
      dist_sum rows false = 0 ∧ revenue_total rows false = 0) ∧
    (∀ t, load_base_with_timestamp sources = .ok t → t.rows ≠ [] →
      df_filtered (cleanBase t.rows) d0 d1 hrMin hrMax ≠ [] →
      render sources d0 d1 hrMin hrMax = .ok (buildOutput t d0 d1 hrMin hrMax)) := by
  refine ⟨?_, ?_, ?_⟩
  · intro h
    simp [render, load_err_of_no_timestamp sources h]
  · intro rows
    refine ⟨?_, ?_, ?_, ?_⟩ <;> simp [fare_sum, tip_sum, dist_sum, revenue_total]
  · intro t hl hrows hfil
    have h1 : t.rows.length ≠ 0 := by
      simpa [List.length_eq_zero] using hrows
    have h2 : (df_filtered (cleanBase t.rows) d0 d1 hrMin hrMax).length ≠ 0 := by
      simpa [List.length_eq_zero] using hfil
    simp [render, hl, guard_df, h1, h2]

theorem c6_schema_amended_witness :
    render [some missingFareSource] 20241 20241 0 23 =
      .ok (buildOutput missingFareSource 20241 20241 0 23) :=
  (c6_schema_amended [some missingFareSource] 20241 20241 0 23).2.2
    missingFareSource rfl
    (by simp [missingFareSource])
    (fun h => one_ne_zero (congrArg List.length h : (1 : Nat) = 0))

/-! ### Zone ranking and uniform scaling (app.py lines 196-206, spec §4.1) -/

/-- A row of the ZoneAggregate table (§3):
`{borough, zone_name, trip_count, revenue_total}`; the count is rational so
it can carry a ratio-scaled magnitude. -/
structure ZoneAgg where
  borough : String
  zone_name : String
  trip_count : ℚ
  revenue_total : ℚ
deriving DecidableEq, Repr

/-- Comparator of `sort_values("trips", ascending=False)`: existing row `a`
stays ahead of an inserted row `b` when its count is at least as large, so
ties keep their original order. -/
def zoneDescLe (a b : ZoneAgg) : Bool := decide (b.trip_count ≤ a.trip_count)

/-- The ranking of lines 202-206: descending stable sort by trip count, then
`head(15)`. -/
def rankZones (zs : List ZoneAgg) : List ZoneAgg :=
  (sortList zoneDescLe zs).take 15

/-- Modelled from the spec: applying `globalHourRatio` multiplies every
trip count of every zone by the same constant (§4.1 globalHourRatio). -/
def scaleZone (c : ℚ) (z : ZoneAgg) : ZoneAgg :=
  { z with trip_count := c * z.trip_count }

theorem zoneDescLe_scale (c : ℚ) (hc : 0 < c) (a b : ZoneAgg) :
    zoneDescLe (scaleZone c a) (scaleZone c b) = zoneDescLe a b := by
  simp [zoneDescLe, scaleZone, mul_le_mul_left hc]

theorem insertSorted_scale (c : ℚ) (hc : 0 < c) (x : ZoneAgg) (l : List ZoneAgg) :
    insertSorted zoneDescLe (scaleZone c x) (l.map (scaleZone c)) =
      (insertSorted zoneDescLe x l).map (scaleZone c) := by
  induction l with
  | nil => rfl
  | cons y ys ih =>
    simp only [List.map_cons, insertSorted, zoneDescLe_scale c hc]
    by_cases h : zoneDescLe y x = true
    · simp [h, ih]
    · simp [h]

theorem sortList_scale (c : ℚ) (hc : 0 < c) (l : List ZoneAgg) :
    sortList zoneDescLe (l.map (scaleZone c)) =
      (sortList zoneDescLe l).map (scaleZone c) := by
  induction l with
  | nil => rfl
  | cons y ys ih =>
    simp only [sortList, List.map_cons, List.foldr_cons]
    rw [show List.foldr (insertSorted zoneDescLe) [] (ys.map (scaleZone c)) =
      sortList zoneDescLe (ys.map (scaleZone c)) from rfl, ih]
    exact insertSorted_scale c hc y (sortList zoneDescLe ys)

/-- Claim C9: for every zone table and every positive scaling constant, the
descending-by-trip-count ranking of the scaled table is the scaled ranking
of the original table — uniform positive scaling changes magnitudes only,
never the order (nor the top-15 cut). -/
theorem c9_order_invariance (zs : List ZoneAgg) (c : ℚ) (hc : 0 < c) :
    rankZones (zs.map (scaleZone c)) = (rankZones zs).map (scaleZone c) := by
  simp only [rankZones, sortList_scale c hc, List.map_take]

/-- A two-zone table with distinct counts, for the scaling witness. -/
def zonesEx : List ZoneAgg :=
  [{ borough := "Manhattan", zone_name := "Midtown", trip_count := 7
     revenue_total := 90 },
   { borough := "Queens", zone_name := "Astoria", trip_count := 12
     revenue_total := 50 }]

theorem c9_order_invariance_witness :
    (0 : ℚ) < 1 / 2 ∧
      rankZones (zonesEx.map (scaleZone (1 / 2))) =
        (rankZones zonesEx).map (scaleZone (1 / 2)) :=
  ⟨by norm_num, c9_order_invariance zonesEx (1 / 2) (by norm_num)⟩

/-! ### Daily redistribution (spec §4.1, not present in app/app.py) -/

/-- A row of the DailyAggregate table (§3):
`{date, trip_count, revenue_total, fare_sum, tip_sum, distance_sum}`. -/
structure DailyRow where
  date : Int
  trip_count : ℚ
  revenue_total : ℚ
  fare_sum : ℚ
  tip_sum : ℚ
  distance_sum : ℚ
deriving DecidableEq, Repr

/-- Modelled from the spec: scale every additive numeric field of a daily
row by one ratio (§4.1 filterAndRedistribute). -/
def scaleDaily (c : ℚ) (r : DailyRow) : DailyRow :=
  { r with
    trip_count := c * r.trip_count
    revenue_total := c * r.revenue_total
    fare_sum := c * r.fare_sum
    tip_sum := c * r.tip_sum
    distance_sum := c * r.distance_sum }

/-- Modelled from the spec: `filterAndRedistribute` (§4.1) — keep the daily
rows inside the inclusive date range, dropping the others entirely, and
scale each kept row by `ratioByDow[isoDayOfWeek(date)]`. -/
def filterAndRedistribute (daily : List DailyRow) (d0 d1 : Int)
    (hourDow : List HourDowRow) (minHour maxHour : Nat) : List DailyRow :=
  (daily.filter (fun r => decide (d0 ≤ r.date) && decide (r.date ≤ d1))).map
    (fun r => scaleDaily
      (computeRatioByDow hourDow minHour maxHour (isoDayOfWeek r.date).toNat) r)

theorem scaleDaily_one (r : DailyRow) : scaleDaily 1 r = r := by
  simp [scaleDaily]

theorem map_id_of_mem_eq {α : Type} (f : α → α) (l : List α)
    (h : ∀ a ∈ l, f a = a) : l.map f = l := by
  induction l with
  | nil => rfl
  | cons x xs ih =>
    rw [List.map_cons, h x (List.mem_cons_self x xs),
      ih (fun a ha => h a (List.mem_cons_of_mem x ha))]

theorem ratio_one_of_full_range (hourDow : List HourDowRow) (dow : Nat)
    (hHours : ∀ r ∈ hourDow, r.hour ≤ 23) (hTot : 0 < totalByDow hourDow dow) :
    computeRatioByDow hourDow 0 23 dow = 1 := by
  have hsel : selectedByDow hourDow 0 23 dow = totalByDow hourDow dow := by
    unfold selectedByDow totalByDow
    congr 1
    apply congrArg
    apply List.filter_congr
    intro r hr
    simp [hHours r hr]
  rw [computeRatioByDow, hsel, if_pos hTot, div_self (ne_of_gt hTot)]
  norm_num

/-- Claim C8: when the hour range is the full `(0, 23)`, hour filtering is
the identity — `df_filtered` degenerates to the date-range filter alone
(the hour of every row is necessarily at most 23); in the spec-modelled
redistribution, `ratioByDow[d] = 1` for every `d` with `total(d) > 0`, and
`filterAndRedistribute` returns exactly the unscaled daily rows restricted
to the date range when every selected date has a positive total. -/
theorem c8_full_hour_range_identity (base : List Row) (daily : List DailyRow)
    (hourDow : List HourDowRow) (d0 d1 : Int)
    (hHours : ∀ r ∈ hourDow, r.hour ≤ 23)
    (hTot : ∀ r ∈ daily, d0 ≤ r.date → r.date ≤ d1 →
      0 < totalByDow hourDow (isoDayOfWeek r.date).toNat) :
    df_filtered base d0 d1 0 23 =
      base.filter (fun r => decide (d0 ≤ pickup_date r) && decide (pickup_date r ≤ d1)) ∧
    (∀ dow, 0 < totalByDow hourDow dow → computeRatioByDow hourDow 0 23 dow = 1) ∧
    filterAndRedistribute daily d0 d1 hourDow 0 23 =
      daily.filter (fun r => decide (d0 ≤ r.date) && decide (r.date ≤ d1)) := by
  refine ⟨?_, fun dow h => ratio_one_of_full_range hourDow dow hHours h, ?_⟩
  · apply List.filter_congr
    intro r hr
    have hh := pickup_hour_lt_24 r
    simp [mask, Nat.lt_succ_iff.mp hh]
  · unfold filterAndRedistribute
    apply map_id_of_mem_eq
    intro r hr
    rw [List.mem_filter] at hr
    obtain ⟨hmem, hcond⟩ := hr
    simp only [Bool.and_eq_true, decide_eq_true_eq] at hcond
    rw [ratio_one_of_full_range hourDow (isoDayOfWeek r.date).toNat hHours
      (hTot r hmem hcond.1 hcond.2), scaleDaily_one]

/-- The concrete scenario of spec §8: hour-by-dow rows for Monday with
totals `100 + 50` and a Monday daily row inside the window. -/
def hourDowEx : List HourDowRow := [⟨1, 8, 100⟩, ⟨1, 20, 50⟩]

/-- A daily row on 2025-06-02 (day 20241, a Monday). -/
def dailyEx : List DailyRow :=
  [{ date := 20241, trip_count := 300, revenue_total := 3000, fare_sum := 10
     tip_sum := 5, distance_sum := 7 }]

theorem c8_full_hour_range_identity_witness :
    (∀ r ∈ hourDowEx, r.hour ≤ 23) ∧
      filterAndRedistribute dailyEx 20241 20241 hourDowEx 0 23 =
        dailyEx.filter (fun r => decide (20241 ≤ r.date) && decide (r.date ≤ 20241)) :=
  ⟨by decide,
   (c8_full_hour_range_identity [] dailyEx hourDowEx 20241 20241 (by decide)
     (by
       intro r hr h1 h2
       have hd : r = dailyEx.head (by simp [dailyEx]) := by
         simpa [dailyEx] using hr
       subst hd
       norm_num [dailyEx, hourDowEx, totalByDow, isoDayOfWeek])).2.2⟩

theorem c1_filter_membership_witness :
    okRow ∈ df_filtered [okRow] 20241 20241 0 23 ↔
      okRow ∈ [okRow] ∧ 20241 ≤ pickup_date okRow ∧ pickup_date okRow ≤ 20241 ∧
        0 ≤ pickup_hour okRow ∧ pickup_hour okRow ≤ 23 :=
  (c1_filter_membership [okRow] 20241 20241 0 23).1 okRow

/-- The row `okRawRow` becomes after cleaning. -/
def cleanedOkRow : Row :=
  { pickupDatetime := { day := 20241, secOfDay := 30000 }
    fareAmount := 10, tipAmount := 2, tripDistance := 3, totalAmount := 12
    pulocationid := 43 }

theorem c10_clean_invariant_witness :
    pickup_hour cleanedOkRow ≤ 23 ∧ 1 ≤ pickup_dow_num cleanedOkRow ∧
      pickup_dow_num cleanedOkRow ≤ 7 :=
  (c10_clean_invariant [okRawRow]).2.2 cleanedOkRow
    (by
      rw [show cleanBase [okRawRow] = [cleanedOkRow] from rfl]
      exact List.mem_singleton_self _)
